import Mathlib

/-!
# Verification of the YouTube MCP server's extraction orchestration layer

A shallow embedding, in Lean 4, of the extraction orchestration code of
`youtube_mcp_server` (files `extractors/youtube_extractor.py`,
`models/video.py`, `models/comment.py`), together with theorems settling
the specified properties of that code.

Modelling conventions:
* Python strings processed character-wise (stdout splitting/stripping) are
  modelled as `List Char`; identifier-like strings (URLs, cache keys,
  ids, error messages) as Lean `String`.
* `json.loads` is an external library call; it is modelled as a parameter
  `p : List Char → Except String α` (a line parser returning either a
  decoded value or an error message).
* Python numbers: counts are `Nat`, timestamps are `Int`
  (`time.time()` values compared by subtraction), the retry delay is `ℚ`
  (a float mutated only by `*= 2`, which is exact).
* Python `Optional` fields and `dict.get` defaults are `Option` with
  `Option.getD`.
* Exceptions are `Except`; each distinct `raise` site of the source gets
  its own constructor carrying the data interpolated into its message.
-/

namespace YoutubeMcp

/-! ## Python string primitives

`str.strip()` and `str.split('\n')` from `_run_yt_dlp` (lines 157-166 of
`youtube_extractor.py`), modelled on `List Char`. -/

/-- Python `str.strip()`: drop whitespace from both ends. -/
def pyStrip (s : List Char) : List Char :=
  ((s.dropWhile Char.isWhitespace).reverse.dropWhile Char.isWhitespace).reverse

/-- Python `str.split('\n')`: split on every newline, keeping empty pieces
(`''.split('\n') == ['']`). -/
def pySplitNl : List Char → List (List Char)
  | [] => [[]]
  | c :: cs =>
    let rest := pySplitNl cs
    if c = '\n' then [] :: rest
    else
      match rest with
      | [] => [[c]]
      | h :: t => (c :: h) :: t

/-- `[line.strip() for line in stdout.strip().split('\n') if line.strip()]`
(`youtube_extractor.py` line 159). -/
def nonBlankLines (stdout : List Char) : List (List Char) :=
  ((pySplitNl (pyStrip stdout)).map pyStrip).filter (fun l => l ≠ [])

/-! ## Error taxonomy of `_run_yt_dlp`

The source raises `YouTubeExtractorError` with a distinct message at each
of its four failure sites (`youtube_extractor.py` lines 168-179); the
constructors carry the data each message interpolates. -/

/-- The four `raise YouTubeExtractorError(...)` sites of `_run_yt_dlp`. -/
inductive YtErr where
  /-- `subprocess.CalledProcessError` handler: `"yt-dlp failed: {e.stderr}"`. -/
  | calledProcess (stderr : String)
  /-- `subprocess.TimeoutExpired` handler: `"Extraction timed out"`. -/
  | timeoutExpired
  /-- empty stdout: `"No data returned from yt-dlp"`. -/
  | noData
  /-- `json.JSONDecodeError` handler: `"Failed to parse JSON: {e}"`. -/
  | jsonDecode (msg : String)
deriving DecidableEq

/-- The message string carried by each `YouTubeExtractorError`. -/
def YtErr.message : YtErr → String
  | .calledProcess stderr => "yt-dlp failed: " ++ stderr
  | .timeoutExpired => "Extraction timed out"
  | .noData => "No data returned from yt-dlp"
  | .jsonDecode msg => "Failed to parse JSON: " ++ msg

/-! ## Response decoding (`_run_yt_dlp`, lines 157-168) -/

/-- `_run_yt_dlp` returns a `dict` for a single item and a `list` for
multiple items (`Union[Dict, List[Dict]]`). -/
inductive YtPayload (α : Type) where
  | single (record : α)
  | multi (records : List α)
deriving DecidableEq

/-- `[json.loads(line) for line in lines]`: decode each line in order,
failing at the first line whose decode raises. -/
def parseLines (p : List Char → Except String α) : List (List Char) → Except String (List α)
  | [] => .ok []
  | l :: ls =>
    match p l with
    | .error e => .error e
    | .ok v =>
      match parseLines p ls with
      | .error e => .error e
      | .ok vs => .ok (v :: vs)

/-- The stdout-processing stage of `_run_yt_dlp` (lines 157-168, plus the
`json.JSONDecodeError` handler of lines 177-179): non-empty stripped stdout
is split into non-blank lines; one line is decoded as a single object, more
lines as one object per line; empty output raises `noData`. -/
def runYtDlpDecode (p : List Char → Except String α) (stdout : List Char) :
    Except YtErr (YtPayload α) :=
  if pyStrip stdout ≠ [] then
    let lines := nonBlankLines stdout
    if lines.length = 1 then
      match p lines.headI with
      | .ok v => .ok (.single v)
      | .error e => .error (.jsonDecode e)
    else
      match parseLines p lines with
      | .ok vs => .ok (.multi vs)
      | .error e => .error (.jsonDecode e)
  else
    .error .noData

/-! ## Retry controller (`_run_yt_dlp_with_retry`, lines 113-129)

The loop `for attempt in range(self.max_retries + 1)` is modelled by
structural recursion on the number of remaining iterations.  The attempt
outcomes are a function `inv : Nat → Except YtErr α` from the attempt
index to what `self._run_yt_dlp(url, options)` does on that attempt.  The
trace records the number of invocations, the arguments of the
`time.sleep` calls in order, and the final value of the mutated
`self.retry_delay` field. -/

/-- Observable outcome of one `_run_yt_dlp_with_retry` call.  The error
case carries the attempt count stated in the final message
`"Failed to extract data from {url} after {n} attempts: {last_error}"`
together with `last_error` (which starts as `None`). -/
structure RetryTrace (α : Type) where
  result : Except (Nat × Option YtErr) α
  calls : Nat
  sleeps : List ℚ
  retry_delay : ℚ

/-- Intermediate state of the retry loop. -/
structure RetryAuxOut (α : Type) where
  result : Except (Option YtErr) α
  calls : Nat
  sleeps : List ℚ
  retry_delay : ℚ

/-- The body of the `for attempt in range(max_retries + 1)` loop:
`remaining` counts iterations still to run, so the guard
`attempt < self.max_retries` is `remaining > 1`, i.e. `0 < r` below.
On failure of a non-final attempt the loop sleeps `retry_delay` seconds
then doubles it in place (`self.retry_delay *= 2`); on failure of the
final attempt it breaks out with the last error recorded. -/
def retryAux (inv : Nat → Except YtErr α) (attempt : Nat) (remaining : Nat)
    (retry_delay : ℚ) (last_error : Option YtErr) : RetryAuxOut α :=
  match remaining with
  | 0 => { result := .error last_error, calls := 0, sleeps := [], retry_delay := retry_delay }
  | r + 1 =>
    match inv attempt with
    | .ok v => { result := .ok v, calls := 1, sleeps := [], retry_delay := retry_delay }
    | .error e =>
      if 0 < r then
        let rest := retryAux inv (attempt + 1) r (retry_delay * 2) (some e)
        { result := rest.result, calls := rest.calls + 1,
          sleeps := retry_delay :: rest.sleeps, retry_delay := rest.retry_delay }
      else
        { result := .error (some e), calls := 1, sleeps := [], retry_delay := retry_delay }

/-- `_run_yt_dlp_with_retry`: run the loop with `max_retries + 1`
iterations starting from the current `self.retry_delay`, and wrap
exhaustion in the terminal error stating `self.max_retries + 1` attempts
and the last underlying error. -/
def runYtDlpWithRetry (inv : Nat → Except YtErr α) (max_retries : Nat)
    (retry_delay : ℚ) : RetryTrace α :=
  let t := retryAux inv 0 (max_retries + 1) retry_delay none
  { result := t.result.mapError (fun last => (max_retries + 1, last)),
    calls := t.calls, sleeps := t.sleeps, retry_delay := t.retry_delay }

/-- The message of the terminal error (`youtube_extractor.py` line 129):
`"Failed to extract data from {url} after {max_retries+1} attempts: {last_error}"`. -/
def exhaustedMessage (url : String) (attempts : Nat) (last : Option YtErr) : String :=
  "Failed to extract data from " ++ url ++ " after " ++ toString attempts
    ++ " attempts: " ++ (match last with | some e => e.message | none => "None")

/-! ## Result cache (`_get_cached_data` lines 181-199, `_set_cached_data`
lines 201-210, and the `@lru_cache(maxsize=100)` decorator on
`_get_cached_data`)

`self._cache` is a `dict` mapping a cache key to `(data, timestamp)`;
it is modelled as an insertion-ordered association list (absence of the
attribute before first `_set_cached_data` is the empty list).  The
`functools.lru_cache` decorator attaches a memo table keyed by
`(self, cache_key)` to `_get_cached_data`; per instance that is a mapping
from the key to the first value the undecorated body returned for it.
(The `maxsize=100` bound is never reached in the scenarios proved about,
so the memo is modelled unbounded.) -/

/-- Python `dict` lookup `d[k]` / `k in d` on an association list. -/
def dictGet (d : List (String × β)) (k : String) : Option β :=
  (d.find? (fun e => e.1 = k)).map (fun e => e.2)

/-- Python `dict` assignment `d[k] = v`: overwrite in place, or append. -/
def dictSet (d : List (String × β)) (k : String) (v : β) : List (String × β) :=
  if (d.find? (fun e => e.1 = k)).isSome then
    d.map (fun e => if e.1 = k then (k, v) else e)
  else
    d ++ [(k, v)]

/-- Python `del d[k]`. -/
def dictDel (d : List (String × β)) (k : String) : List (String × β) :=
  d.filter (fun e => e.1 ≠ k)

/-- The caching-relevant state of one `YouTubeExtractor` instance:
its configuration fields, its `self._cache` dict, and the `lru_cache`
memo entries recorded for this instance. -/
structure ExtractorCache (α : Type) where
  enable_cache : Bool
  cache_ttl : Int
  cache : List (String × (α × Int))
  lruMemo : List (String × Option α)
deriving DecidableEq

/-- The undecorated body of `_get_cached_data` (lines 183-199): return the
cached payload if present and `current_time - timestamp < self.cache_ttl`,
delete an expired entry, return `None` otherwise or when caching is off. -/
def getCachedDataBody (st : ExtractorCache α) (now : Int) (cache_key : String) :
    Option α × ExtractorCache α :=
  if st.enable_cache = false then (none, st)
  else
    match dictGet st.cache cache_key with
    | some (data, timestamp) =>
      if now - timestamp < st.cache_ttl then (some data, st)
      else (none, { st with cache := dictDel st.cache cache_key })
    | none => (none, st)

/-- `_get_cached_data` as actually called: the `@lru_cache(maxsize=100)`
wrapper first consults its memo for `(self, cache_key)` and, on a miss,
runs the body once and memoises whatever it returned. -/
def getCachedData (st : ExtractorCache α) (now : Int) (cache_key : String) :
    Option α × ExtractorCache α :=
  match dictGet st.lruMemo cache_key with
  | some r => (r, st)
  | none =>
    let (r, st') := getCachedDataBody st now cache_key
    (r, { st' with lruMemo := dictSet st'.lruMemo cache_key r })

/-- `_set_cached_data` (lines 201-210): store `(data, time.time())` under
the key, creating `self._cache` if absent; no-op when caching is off. -/
def setCachedData (st : ExtractorCache α) (now : Int) (cache_key : String) (data : α) :
    ExtractorCache α :=
  if st.enable_cache = false then st
  else { st with cache := dictSet st.cache cache_key (data, now) }

/-- The `size` field of `get_cache_stats` (line 872): `len(self._cache)`. -/
def cacheStatsSize (st : ExtractorCache α) : Nat :=
  st.cache.length

/-! ## Batch coordinator (`batch_extract`, lines 775-815)

One task per URL is created and run by
`asyncio.gather(*tasks, return_exceptions=True)`, which returns one value
per task in submission order, exceptions captured as values; this is
modelled by mapping the per-target outcome function over the URL list.
The final loop keeps exactly the non-exception results, in order. -/

/-- `batch_extract` for a fixed extraction operation `extractOne` (the
coroutine chosen by `extract_type`): gather all outcomes in submission
order, then filter out the exceptions. -/
def batchExtract (extractOne : String → Except YtErr β) (urls : List String) : List β :=
  let results := urls.map extractOne
  results.filterMap Except.toOption

/-! ## Video model (`models/video.py`) -/

/-- `VideoMetadata` (`models/video.py` lines 20-39). -/
structure VideoMetadata where
  id : String
  title : String
  description : Option String
  upload_date : Option String
  uploader : String
  uploader_id : String
  uploader_url : String
  tags : List String
  categories : List String
  thumbnail : Option String
deriving DecidableEq

/-- `VideoStats` (`models/video.py` lines 10-17). -/
structure VideoStats where
  view_count : Nat
  like_count : Option Nat
  comment_count : Option Nat
  duration_seconds : Nat
  duration_string : String
deriving DecidableEq

/-- `VideoInfo` (`models/video.py` lines 42-66), ratios as exact rationals. -/
structure VideoInfo where
  metadata : VideoMetadata
  stats : VideoStats
  url : String
  webpage_url : String
  age_limit : Nat
  availability : Option String
  live_status : Option String
  like_to_view_ratio : Option ℚ
  comment_to_view_ratio : Option ℚ
deriving DecidableEq

/-- `VideoInfo.__init__` (lines 59-66): construct the record with both
ratios `None`, then set `like_to_view_ratio` when
`self.stats.like_count and self.stats.view_count > 0` — Python truthiness,
so `like_count` must be non-`None` **and** non-zero — and likewise
`comment_to_view_ratio` from `comment_count`. -/
def VideoInfo.init (metadata : VideoMetadata) (stats : VideoStats)
    (url webpage_url : String) (age_limit : Nat)
    (availability live_status : Option String) : VideoInfo :=
  let like_to_view_ratio : Option ℚ :=
    match stats.like_count with
    | some lc => if lc ≠ 0 ∧ 0 < stats.view_count
                 then some ((lc : ℚ) / (stats.view_count : ℚ)) else none
    | none => none
  let comment_to_view_ratio : Option ℚ :=
    match stats.comment_count with
    | some cc => if cc ≠ 0 ∧ 0 < stats.view_count
                 then some ((cc : ℚ) / (stats.view_count : ℚ)) else none
    | none => none
  { metadata := metadata, stats := stats, url := url, webpage_url := webpage_url,
    age_limit := age_limit, availability := availability, live_status := live_status,
    like_to_view_ratio := like_to_view_ratio,
    comment_to_view_ratio := comment_to_view_ratio }

/-! ## Comment model (`models/comment.py`) and comment parsing
(`_parse_comments`, `youtube_extractor.py` lines 363-403)

The raw yt-dlp comment dicts are modelled with every field the parser
reads; a missing key is `none` (read through `dict.get` with the default
the source supplies).  The `timestamp` validator of `models/comment.py`
converts integer timestamps to strings, so timestamps are modelled
post-validation as strings.  `_parse_comments` reads only the six fields
below from each element of a comment's `replies` list. -/

/-- Fields of a raw reply dict read by `_parse_comments` (lines 384-394). -/
structure RawReply where
  id : Option String
  text : Option String
  author : Option String
  author_id : Option String
  like_count : Option Nat
  timestamp : Option String
deriving DecidableEq

/-- Fields of a raw top-level comment dict read by `_parse_comments`
(lines 369-394). -/
structure RawComment where
  id : Option String
  text : Option String
  author : Option String
  author_id : Option String
  like_count : Option Nat
  timestamp : Option String
  is_pinned : Option Bool
  is_favorited : Option Bool
  replies : Option (List RawReply)
deriving DecidableEq

/-- `Comment` (`models/comment.py` lines 10-29). -/
structure Comment where
  id : String
  text : String
  author : String
  author_id : Option String
  like_count : Nat
  timestamp : Option String
  is_pinned : Bool
  is_favorited : Bool
  parent_id : Option String
deriving DecidableEq

/-- `CommentThread` (`models/comment.py` lines 32-37). -/
structure CommentThread where
  top_comment : Comment
  replies : List Comment
  total_reply_count : Nat
deriving DecidableEq

/-- The body of `_parse_comments`'s loop (lines 369-401): build the main
comment with the source's `dict.get` defaults, build each reply with
`parent_id=main_comment.id`, and assemble the thread. -/
def parseThread (comment_info : RawComment) : CommentThread :=
  let main_comment : Comment :=
    { id := comment_info.id.getD "", text := comment_info.text.getD "",
      author := comment_info.author.getD "", author_id := comment_info.author_id,
      like_count := comment_info.like_count.getD 0, timestamp := comment_info.timestamp,
      is_pinned := comment_info.is_pinned.getD false,
      is_favorited := comment_info.is_favorited.getD false,
      parent_id := none }
  let replies : List Comment :=
    (comment_info.replies.getD []).map (fun reply_info =>
      { id := reply_info.id.getD "", text := reply_info.text.getD "",
        author := reply_info.author.getD "", author_id := reply_info.author_id,
        like_count := reply_info.like_count.getD 0, timestamp := reply_info.timestamp,
        is_pinned := false, is_favorited := false,
        parent_id := some main_comment.id })
  { top_comment := main_comment, replies := replies,
    total_reply_count := replies.length }

/-- `_parse_comments` (lines 363-403), applied to the `comments` field of
the info dict (`data.get("comments", [])`). -/
def parseComments (comments : Option (List RawComment)) : List CommentThread :=
  (comments.getD []).map parseThread

/-! ## Shared sample data for concrete evaluations -/

/-- A sample `VideoMetadata` value for concrete instantiations. -/
def mdSample : VideoMetadata :=
  { id := "dQw4w9WgXcQ", title := "t", description := none, upload_date := none,
    uploader := "u", uploader_id := "uid", uploader_url := "uurl",
    tags := [], categories := [], thumbnail := none }

/-- A toy line decoder standing in for the external `json.loads` in
concrete evaluations: a non-empty all-digit line decodes to its length. -/
def digitLine : List Char → Except String Nat
  | [] => .error "empty"
  | l => if l.all Char.isDigit then .ok l.length else .error "not a digit line"

/-- A sample raw reply dict. -/
def rawReplySample : RawReply :=
  { id := some "r1", text := some "hello", author := some "bob",
    author_id := none, like_count := some 1, timestamp := none }

/-- A sample raw top-level comment dict with one reply. -/
def rawCommentSample : RawComment :=
  { id := some "c1", text := some "top", author := some "alice",
    author_id := some "a1", like_count := some 3, timestamp := none,
    is_pinned := some false, is_favorited := none,
    replies := some [rawReplySample] }

/-! ## Theorems -/

/-- C7: a `VideoInfo` constructed with `view_count = 1000`,
`like_count = 50`, `comment_count = 10` gets
`like_to_view_ratio = 0.05` and `comment_to_view_ratio = 0.01`, and every
`VideoInfo` constructed with `view_count = 0` has both ratios absent. -/
theorem engagement_ratios :
    (∀ md u w al av ls (stats : VideoStats), stats.view_count = 1000 →
      stats.like_count = some 50 → stats.comment_count = some 10 →
      (VideoInfo.init md stats u w al av ls).like_to_view_ratio = some 0.05 ∧
      (VideoInfo.init md stats u w al av ls).comment_to_view_ratio = some 0.01) ∧
    (∀ md u w al av ls (stats : VideoStats), stats.view_count = 0 →
      (VideoInfo.init md stats u w al av ls).like_to_view_ratio = none ∧
      (VideoInfo.init md stats u w al av ls).comment_to_view_ratio = none) := by
  constructor
  · intro md u w al av ls stats hv hl hc
    simp only [VideoInfo.init, hv, hl, hc]
    norm_num
  · intro md u w al av ls stats hv
    unfold VideoInfo.init
    rcases hl : stats.like_count with _ | lc <;>
      rcases hc : stats.comment_count with _ | cc <;>
        simp [hl, hc, hv]

/-- Witness for C7 at concrete stats (1000 views, 50 likes, 10 comments;
and 0 views). -/
theorem engagement_ratios_witness :
    ((VideoInfo.init mdSample
        { view_count := 1000, like_count := some 50, comment_count := some 10,
          duration_seconds := 212, duration_string := "3:32" }
        "u1" "w1" 0 none none).like_to_view_ratio = some 0.05 ∧
     (VideoInfo.init mdSample
        { view_count := 1000, like_count := some 50, comment_count := some 10,
          duration_seconds := 212, duration_string := "3:32" }
        "u1" "w1" 0 none none).comment_to_view_ratio = some 0.01) ∧
    ((VideoInfo.init mdSample
        { view_count := 0, like_count := some 50, comment_count := some 10,
          duration_seconds := 212, duration_string := "3:32" }
        "u1" "w1" 0 none none).like_to_view_ratio = none ∧
     (VideoInfo.init mdSample
        { view_count := 0, like_count := some 50, comment_count := some 10,
          duration_seconds := 212, duration_string := "3:32" }
        "u1" "w1" 0 none none).comment_to_view_ratio = none) :=
  ⟨engagement_ratios.1 mdSample "u1" "w1" 0 none none _ rfl rfl rfl,
   engagement_ratios.2 mdSample "u1" "w1" 0 none none _ rfl⟩

/-- C10: a known-but-zero count suppresses the ratio — with
`view_count > 0` and `like_count = some 0` the like ratio is absent (not
`0.0`), and likewise for `comment_count = some 0`. -/
theorem zero_count_suppresses_ratio (md : VideoMetadata) (u w : String) (al : Nat)
    (av ls : Option String) (stats : VideoStats) (_hv : 0 < stats.view_count) :
    (stats.like_count = some 0 →
      (VideoInfo.init md stats u w al av ls).like_to_view_ratio = none) ∧
    (stats.comment_count = some 0 →
      (VideoInfo.init md stats u w al av ls).comment_to_view_ratio = none) := by
  constructor
  · intro hl
    unfold VideoInfo.init
    rcases hc : stats.comment_count with _ | cc <;> simp [hl, hc]
  · intro hc
    unfold VideoInfo.init
    rcases hl : stats.like_count with _ | lc <;> simp [hl, hc]

/-- Witness for C10 at `view_count = 1000`, both counts present but `0`. -/
theorem zero_count_suppresses_ratio_witness :
    0 < (1000 : Nat) ∧
    ((VideoInfo.init mdSample
        { view_count := 1000, like_count := some 0, comment_count := some 0,
          duration_seconds := 7, duration_string := "0:07" }
        "u1" "w1" 0 none none).like_to_view_ratio = none ∧
     (VideoInfo.init mdSample
        { view_count := 1000, like_count := some 0, comment_count := some 0,
          duration_seconds := 7, duration_string := "0:07" }
        "u1" "w1" 0 none none).comment_to_view_ratio = none) :=
  ⟨by norm_num,
   (zero_count_suppresses_ratio mdSample "u1" "w1" 0 none none
      { view_count := 1000, like_count := some 0, comment_count := some 0,
        duration_seconds := 7, duration_string := "0:07" } (by norm_num)).1 rfl,
   (zero_count_suppresses_ratio mdSample "u1" "w1" 0 none none
      { view_count := 1000, like_count := some 0, comment_count := some 0,
        duration_seconds := 7, duration_string := "0:07" } (by norm_num)).2 rfl⟩

/-- C8: every reply of every thread produced by `_parse_comments` carries
a non-null `parent_id` equal to the id of the thread's top-level comment. -/
theorem reply_parent_linkage (comments : Option (List RawComment))
    (thread : CommentThread) (ht : thread ∈ parseComments comments)
    (reply : Comment) (hr : reply ∈ thread.replies) :
    reply.parent_id ≠ none ∧ reply.parent_id = some thread.top_comment.id := by
  rcases List.mem_map.mp (by simpa [parseComments] using ht) with ⟨ci, _, rfl⟩
  simp only [parseThread] at hr ⊢
  rcases List.mem_map.mp hr with ⟨ri, _, rfl⟩
  simp

/-- Witness for C8 on a concrete comment dict with one reply. -/
theorem reply_parent_linkage_witness :
    ({ id := "r1", text := "hello", author := "bob", author_id := none,
       like_count := 1, timestamp := none, is_pinned := false,
       is_favorited := false, parent_id := some "c1" } : Comment).parent_id ≠ none ∧
    ({ id := "r1", text := "hello", author := "bob", author_id := none,
       like_count := 1, timestamp := none, is_pinned := false,
       is_favorited := false, parent_id := some "c1" } : Comment).parent_id
      = some (parseThread rawCommentSample).top_comment.id :=
  reply_parent_linkage (some [rawCommentSample]) (parseThread rawCommentSample)
    (by decide) _ (by decide)

/-- C6: the batch returns exactly the successful results — its length is
`n - k` for `k` failing targets, and every returned element is the result
of some successful target (failures leave no placeholder); the batch
itself is a total function and never fails wholesale. -/
theorem batch_drops_failed_targets (f : String → Except YtErr β) (urls : List String) :
    (batchExtract f urls).length
      = urls.length - (urls.filter (fun u => !(f u).isOk)).length ∧
    (∀ b ∈ batchExtract f urls, ∃ u ∈ urls, f u = .ok b) := by
  constructor
  · induction urls with
    | nil => simp [batchExtract]
    | cons u us ih =>
      have hle := List.length_filter_le (fun u => !(f u).isOk) us
      rcases h : f u with e | v <;>
        (simp [batchExtract, h, Except.toOption, Except.isOk, Except.toBool] at ih hle ⊢
         omega)
  · intro b hb
    simp only [batchExtract, List.filterMap_map, List.mem_filterMap] at hb
    rcases hb with ⟨u, hu, hok⟩
    refine ⟨u, hu, ?_⟩
    rcases h : f u with e | v <;> simp [h, Except.toOption] at hok <;> simp [hok]

/-- Witness for C6: 3 targets of which the second always fails yield a
2-element result sequence. -/
theorem batch_drops_failed_targets_witness :
    (batchExtract
        (fun u => if u = "B" then .error (.timeoutExpired) else .ok u)
        ["A", "B", "C"]).length
      = 3 - (["A", "B", "C"].filter
          (fun u => !((fun u => if u = "B" then (.error (.timeoutExpired) : Except YtErr String) else .ok u) u).isOk)).length ∧
    (∀ b ∈ batchExtract
        (fun u => if u = "B" then .error (.timeoutExpired) else .ok u)
        ["A", "B", "C"], ∃ u ∈ ["A", "B", "C"],
        (fun u => if u = "B" then (.error (.timeoutExpired) : Except YtErr String) else .ok u) u = .ok b) :=
  batch_drops_failed_targets
    (fun u => if u = "B" then .error (.timeoutExpired) else .ok u) ["A", "B", "C"]

/-- C9: the batch preserves submission order among successes — for any two
successful targets `a` before `b` in the input list, `a`'s result appears
before `b`'s in the output, the output decomposing segment by segment. -/
theorem batch_preserves_order (f : String → Except YtErr β)
    (l₁ l₂ l₃ : List String) (a b : String) (ra rb : β)
    (ha : f a = .ok ra) (hb : f b = .ok rb) :
    batchExtract f (l₁ ++ a :: (l₂ ++ b :: l₃))
      = batchExtract f l₁ ++ ra :: (batchExtract f l₂ ++ rb :: batchExtract f l₃) := by
  simp [batchExtract, List.filterMap_append, ha, hb, Except.toOption]

/-- Witness for C9 on a concrete batch with a failure between two
successes. -/
theorem batch_preserves_order_witness :
    batchExtract
        (fun u => if u = "X" then .error (.timeoutExpired) else .ok u)
        (["X"] ++ "A" :: ([] ++ "C" :: ["X"]))
      = batchExtract (fun u => if u = "X" then .error (.timeoutExpired) else .ok u) ["X"]
        ++ "A" :: (batchExtract (fun u => if u = "X" then .error (.timeoutExpired) else .ok u) []
          ++ "C" :: batchExtract (fun u => if u = "X" then .error (.timeoutExpired) else .ok u) ["X"]) :=
  batch_preserves_order
    (fun u => if u = "X" then .error (.timeoutExpired) else .ok u)
    ["X"] [] ["X"] "A" "C" "A" "C" rfl rfl

/-- Helper: stripped-empty stdout yields no non-blank lines. -/
theorem nonBlankLines_nil_of_strip_nil (stdout : List Char) (h : pyStrip stdout = []) :
    nonBlankLines stdout = [] := by
  unfold nonBlankLines
  rw [h]
  rfl

/-- Helper: line-by-line decoding of all-decodable lines succeeds with one
record per line, in line order. -/
theorem parseLines_all_ok (p : List Char → Except String α) :
    ∀ (ls : List (List Char)), (∀ l ∈ ls, (p l).isOk = true) →
      ∃ vs, parseLines p ls = .ok vs ∧ vs.length = ls.length ∧
        ∀ (i : Nat) (hi : i < ls.length) (hv : i < vs.length),
          p (ls.get ⟨i, hi⟩) = .ok (vs.get ⟨i, hv⟩) := by
  intro ls
  induction ls with
  | nil => exact fun _ => ⟨[], rfl, rfl, fun i hi => absurd hi (by simp)⟩
  | cons l ls ih =>
    intro hall
    have hl := hall l (List.mem_cons_self l ls)
    rcases hpl : p l with e | v
    · rw [hpl] at hl
      simp [Except.isOk, Except.toBool] at hl
    · obtain ⟨vs, hvs, hlen, hpt⟩ := ih (fun x hx => hall x (List.mem_cons_of_mem l hx))
      refine ⟨v :: vs, by simp [parseLines, hpl, hvs], by simp [hlen], ?_⟩
      intro i hi hv
      cases i with
      | zero => simpa using hpl
      | succ j => simpa using hpt j (by simpa using hi) (by simpa using hv)

/-- Helper: a line whose decode fails makes line-by-line decoding fail. -/
theorem parseLines_error (p : List Char → Except String α) :
    ∀ (ls : List (List Char)) (l : List Char), l ∈ ls → ∀ m, p l = .error m →
      ∃ m', parseLines p ls = .error m' := by
  intro ls
  induction ls with
  | nil =>
    intro l hl
    simp at hl
  | cons a ls ih =>
    intro l hl m hm
    rcases hpa : p a with e | v
    · exact ⟨e, by simp [parseLines, hpa]⟩
    · have hla : l ≠ a := by
        rintro rfl
        rw [hpa] at hm
        exact absurd hm (by simp)
      have hl' : l ∈ ls := by
        rcases List.mem_cons.mp hl with h | h
        · exact absurd h hla
        · exact h
      obtain ⟨m', hm'⟩ := ih l hl' m hm
      exact ⟨m', by simp [parseLines, hpa, hm']⟩

/-- C5: one non-blank line of decodable output yields exactly one (single)
record; `N > 1` non-blank lines, each decodable, yield exactly `N` records
in line order; any line that fails to decode makes the whole call fail
with no partial result. -/
theorem response_decoder (p : List Char → Except String α) (stdout : List Char) :
    (∀ l v, nonBlankLines stdout = [l] → p l = .ok v →
      runYtDlpDecode p stdout = .ok (.single v)) ∧
    (1 < (nonBlankLines stdout).length →
      (∀ l ∈ nonBlankLines stdout, (p l).isOk = true) →
      ∃ vs, runYtDlpDecode p stdout = .ok (.multi vs) ∧
        vs.length = (nonBlankLines stdout).length ∧
        ∀ (i : Nat) (hi : i < (nonBlankLines stdout).length) (hv : i < vs.length),
          p ((nonBlankLines stdout).get ⟨i, hi⟩) = .ok (vs.get ⟨i, hv⟩)) ∧
    (∀ l m, l ∈ nonBlankLines stdout → p l = .error m →
      ∃ m', runYtDlpDecode p stdout = .error (.jsonDecode m')) := by
  have hne : nonBlankLines stdout ≠ [] → pyStrip stdout ≠ [] := fun h hc =>
    h (nonBlankLines_nil_of_strip_nil stdout hc)
  refine ⟨?_, ?_, ?_⟩
  · intro l v hl hp
    have hstrip : pyStrip stdout ≠ [] := hne (by simp [hl])
    simp [runYtDlpDecode, hstrip, hl, hp]
  · intro hlen hall
    have hstrip : pyStrip stdout ≠ [] := hne (by
      intro hc
      rw [hc] at hlen
      simp at hlen)
    obtain ⟨vs, hvs, hl, hpt⟩ := parseLines_all_ok p _ hall
    refine ⟨vs, ?_, hl, hpt⟩
    have h1 : ¬((nonBlankLines stdout).length = 1) := by omega
    simp [runYtDlpDecode, hstrip, h1, hvs]
  · intro l m hl hp
    have hstrip : pyStrip stdout ≠ [] := hne (List.ne_nil_of_mem hl)
    by_cases h1 : (nonBlankLines stdout).length = 1
    · obtain ⟨a, ha⟩ := List.length_eq_one.mp h1
      have hla : l = a := by
        rw [ha] at hl
        simpa using hl
      subst hla
      exact ⟨m, by simp [runYtDlpDecode, hstrip, ha, hp]⟩
    · obtain ⟨m', hm'⟩ := parseLines_error p _ l hl m hp
      exact ⟨m', by simp [runYtDlpDecode, hstrip, h1, hm']⟩

/-- Witness for C5: one digit line decodes to a single record, two lines
decode to two records in line order, a non-decodable line fails the call. -/
theorem response_decoder_witness :
    runYtDlpDecode digitLine ['7'] = .ok (.single 1) ∧
    (∃ vs, runYtDlpDecode digitLine ['7', '\n', '4', '2'] = .ok (.multi vs) ∧
      vs.length = (nonBlankLines ['7', '\n', '4', '2']).length ∧
      ∀ (i : Nat) (hi : i < (nonBlankLines ['7', '\n', '4', '2']).length)
        (hv : i < vs.length),
        digitLine ((nonBlankLines ['7', '\n', '4', '2']).get ⟨i, hi⟩)
          = .ok (vs.get ⟨i, hv⟩)) ∧
    (∃ m', runYtDlpDecode digitLine ['o', 'p', 's'] = .error (.jsonDecode m')) :=
  ⟨(response_decoder digitLine ['7']).1 ['7'] 1 (by decide) rfl,
   (response_decoder digitLine ['7', '\n', '4', '2']).2.1 (by decide) (by decide),
   (response_decoder digitLine ['o', 'p', 's']).2.2 ['o', 'p', 's']
     "not a digit line" (by decide) rfl⟩

/-- C4: empty-after-strip output fails with the no-data error, a non-blank
undecodable line fails with the JSON-decode error, and the two failure
kinds are distinct — as constructors and as message strings. -/
theorem error_kinds_distinguishable (p : List Char → Except String α) (stdout : List Char) :
    (pyStrip stdout = [] → runYtDlpDecode p stdout = .error .noData) ∧
    (∀ l m, nonBlankLines stdout = [l] → p l = .error m →
      runYtDlpDecode p stdout = .error (.jsonDecode m)) ∧
    (∀ m, YtErr.noData ≠ YtErr.jsonDecode m ∧
      YtErr.message .noData ≠ YtErr.message (.jsonDecode m)) := by
  refine ⟨?_, ?_, ?_⟩
  · intro h
    simp [runYtDlpDecode, h]
  · intro l m hl hp
    have hstrip : pyStrip stdout ≠ [] := by
      intro hc
      rw [nonBlankLines_nil_of_strip_nil stdout hc] at hl
      simp at hl
    simp [runYtDlpDecode, hstrip, hl, hp]
  · intro m
    refine ⟨by simp, ?_⟩
    intro hmsg
    simp only [YtErr.message] at hmsg
    have h2 := congrArg (fun s => s.data.head?) hmsg
    simp only [String.data_append, List.head?_append] at h2
    rw [show "No data returned from yt-dlp".data.head? = some 'N' from rfl] at h2
    rw [show "Failed to parse JSON: ".data.head? = some 'F' from rfl] at h2
    simp at h2

/-- Witness for C4: empty stdout gives the no-data error, a non-digit line
gives the JSON-decode error, and the two are distinct with distinct
messages. -/
theorem error_kinds_distinguishable_witness :
    runYtDlpDecode digitLine [] = .error .noData ∧
    runYtDlpDecode digitLine ['o', 'p', 's'] = .error (.jsonDecode "not a digit line") ∧
    (YtErr.noData ≠ YtErr.jsonDecode "not a digit line" ∧
      YtErr.message .noData ≠ YtErr.message (.jsonDecode "not a digit line")) :=
  ⟨(error_kinds_distinguishable digitLine []).1 rfl,
   (error_kinds_distinguishable digitLine ['o', 'p', 's']).2.1 ['o', 'p', 's']
     "not a digit line" (by decide) rfl,
   (error_kinds_distinguishable digitLine ['o', 'p', 's']).2.2 "not a digit line"⟩

/-- Helper: pointwise identity behind the geometric shift of the backoff
sequence. -/
theorem geomShift (d : ℚ) (k : Nat) :
    (List.range k).map (fun i => d * 2 * 2 ^ i)
      = (List.range k).map ((fun i => d * 2 ^ i) ∘ Nat.succ) := by
  apply List.map_congr_left
  intro i _
  simp only [Function.comp_apply, pow_succ]
  ring

/-- Helper: whatever the attempt outcomes, the sleeps of the retry loop
form the geometric sequence `d, 2d, 4d, …` from the entry delay `d`, and
the loop leaves `self.retry_delay` equal to `d` doubled once per sleep. -/
theorem retryAux_geometric (inv : Nat → Except YtErr α) :
    ∀ (remaining attempt : Nat) (d : ℚ) (le : Option YtErr),
      (retryAux inv attempt remaining d le).sleeps
        = (List.range (retryAux inv attempt remaining d le).sleeps.length).map
            (fun i => d * 2 ^ i) ∧
      (retryAux inv attempt remaining d le).retry_delay
        = d * 2 ^ (retryAux inv attempt remaining d le).sleeps.length := by
  intro remaining
  induction remaining with
  | zero => intro attempt d le; simp [retryAux]
  | succ r ih =>
    intro attempt d le
    rcases h : inv attempt with e | v
    · by_cases hr : 0 < r
      · obtain ⟨hs, hd⟩ := ih (attempt + 1) (d * 2) (some e)
        simp only [retryAux, h, if_pos hr, List.length_cons]
        constructor
        · rw [hs]
          simp only [List.length_map, List.length_range, List.range_succ_eq_map,
            List.map_cons, List.map_map]
          congr 1
          · norm_num
          · exact geomShift d _
        · rw [hd, hs]
          simp only [List.length_map, List.length_range, pow_succ]
          ring
      · simp [retryAux, h, hr]
    · simp [retryAux, h]

/-- C2: within one `_run_yt_dlp_with_retry` call the delays slept before
the retries are `d, 2d, 4d, …` starting from the current value `d` of
`self.retry_delay`, doubling each time with no upper cap, and the call
leaves `self.retry_delay = d·2^(number of sleeps)`; a subsequent call
starts from that persisted value, so its sleeps continue the doubled
sequence (`self.retry_delay` is mutated in place and never restored). -/
theorem retry_backoff_doubles_and_persists (inv inv2 : Nat → Except YtErr α)
    (max_retries : Nat) (d : ℚ) :
    (runYtDlpWithRetry inv max_retries d).sleeps
      = (List.range (runYtDlpWithRetry inv max_retries d).sleeps.length).map
          (fun i => d * 2 ^ i) ∧
    (runYtDlpWithRetry inv max_retries d).retry_delay
      = d * 2 ^ (runYtDlpWithRetry inv max_retries d).sleeps.length ∧
    (runYtDlpWithRetry inv2 max_retries
        (runYtDlpWithRetry inv max_retries d).retry_delay).sleeps
      = (List.range (runYtDlpWithRetry inv2 max_retries
            (runYtDlpWithRetry inv max_retries d).retry_delay).sleeps.length).map
          (fun i => d * 2 ^ ((runYtDlpWithRetry inv max_retries d).sleeps.length + i)) := by
  obtain ⟨h1, h2⟩ := retryAux_geometric inv (max_retries + 1) 0 d none
  obtain ⟨h3, _⟩ := retryAux_geometric inv2 (max_retries + 1) 0
    ((retryAux inv 0 (max_retries + 1) d none).retry_delay) none
  simp only [runYtDlpWithRetry]
  refine ⟨h1, h2, ?_⟩
  rw [h3, h2]
  simp only [List.length_map, List.length_range]
  apply List.map_congr_left
  intro i _
  rw [pow_add]
  ring

/-- Helper: one unfolding of the retry loop on a failed non-final attempt. -/
theorem retryAux_succ_error (inv : Nat → Except YtErr α) (attempt r : Nat) (d : ℚ)
    (le : Option YtErr) (e : YtErr) (h : inv attempt = .error e) (hr : 0 < r) :
    retryAux inv attempt (r + 1) d le =
      { result := (retryAux inv (attempt + 1) r (d * 2) (some e)).result,
        calls := (retryAux inv (attempt + 1) r (d * 2) (some e)).calls + 1,
        sleeps := d :: (retryAux inv (attempt + 1) r (d * 2) (some e)).sleeps,
        retry_delay := (retryAux inv (attempt + 1) r (d * 2) (some e)).retry_delay } := by
  simp only [retryAux, h, if_pos hr]

/-- Helper: an invoker failing on every attempt makes the loop run all its
iterations, recording one call per iteration and the last attempt's error. -/
theorem retryAux_allfail (inv : Nat → Except YtErr α) (errs : Nat → YtErr)
    (hfail : ∀ n, inv n = .error (errs n)) :
    ∀ (r attempt : Nat) (d : ℚ) (le : Option YtErr),
      (retryAux inv attempt (r + 1) d le).calls = r + 1 ∧
      (retryAux inv attempt (r + 1) d le).result
        = .error (some (errs (attempt + r))) := by
  intro r
  induction r with
  | zero =>
    intro attempt d le
    simp [retryAux, hfail attempt]
  | succ r ih =>
    intro attempt d le
    obtain ⟨h1, h2⟩ := ih (attempt + 1) (d * 2) (some (errs attempt))
    have harith : attempt + 1 + r = attempt + (r + 1) := by omega
    rw [harith] at h2
    rw [retryAux_succ_error inv attempt (r + 1) d le (errs attempt)
      (hfail attempt) (Nat.succ_pos r)]
    exact ⟨by simp [h1], by simp [h2]⟩

/-- C3: an invoker that fails on every attempt is invoked exactly
`max_retries + 1` times (4 for the default `max_retries = 3`), after which
`_run_yt_dlp_with_retry` raises the terminal error stating the
`max_retries + 1` attempt count and wrapping the last underlying error. -/
theorem retry_exhaustion (inv : Nat → Except YtErr α) (errs : Nat → YtErr)
    (hfail : ∀ n, inv n = .error (errs n)) (max_retries : Nat) (d : ℚ) :
    (runYtDlpWithRetry inv max_retries d).calls = max_retries + 1 ∧
    (runYtDlpWithRetry inv max_retries d).result
      = .error (max_retries + 1, some (errs max_retries)) := by
  obtain ⟨h1, h2⟩ := retryAux_allfail inv errs hfail max_retries 0 d none
  simp only [runYtDlpWithRetry]
  refine ⟨h1, ?_⟩
  rw [h2]
  simp [Except.mapError]

/-- Witness for C3: the always-timeout invoker with `max_retries = 3` and
delay `1.0` is called exactly 4 times and the terminal error states 4
attempts around the last timeout. -/
theorem retry_exhaustion_witness :
    (runYtDlpWithRetry (fun _ : Nat => (.error .timeoutExpired : Except YtErr Nat))
        3 1).calls = 3 + 1 ∧
    (runYtDlpWithRetry (fun _ : Nat => (.error .timeoutExpired : Except YtErr Nat))
        3 1).result
      = .error (3 + 1, some ((fun _ : Nat => YtErr.timeoutExpired) 3)) :=
  retry_exhaustion (fun _ => .error .timeoutExpired) (fun _ => .timeoutExpired)
    (fun _ => rfl) 3 1

/-- C1 (code bug): the `@lru_cache` decorator on `_get_cached_data`
memoises the body's first answer per key, so after storing `42` at time
`0` with `cache_ttl = 3600` and looking the key up at time `1` (hit,
memoised), a lookup at time `4000` — past the TTL — still returns `42`
and the entry is never evicted (`len(self._cache)` stays `1`), while the
undecorated body at time `4000` would return `None` and evict. -/
theorem cache_ttl_eviction_defeated_by_memo :
    (getCachedData
        (setCachedData
          ({ enable_cache := true, cache_ttl := 3600, cache := [], lruMemo := [] } :
            ExtractorCache Nat) 0 "video_info:K" 42)
        1 "video_info:K").1 = some 42 ∧
    (getCachedData
        (getCachedData
          (setCachedData
            ({ enable_cache := true, cache_ttl := 3600, cache := [], lruMemo := [] } :
              ExtractorCache Nat) 0 "video_info:K" 42)
          1 "video_info:K").2
        4000 "video_info:K").1 = some 42 ∧
    cacheStatsSize
      (getCachedData
        (getCachedData
          (setCachedData
            ({ enable_cache := true, cache_ttl := 3600, cache := [], lruMemo := [] } :
              ExtractorCache Nat) 0 "video_info:K" 42)
          1 "video_info:K").2
        4000 "video_info:K").2 = 1 ∧
    (getCachedDataBody
        (getCachedData
          (setCachedData
            ({ enable_cache := true, cache_ttl := 3600, cache := [], lruMemo := [] } :
              ExtractorCache Nat) 0 "video_info:K" 42)
          1 "video_info:K").2
        4000 "video_info:K").1 = none ∧
    cacheStatsSize
      (getCachedDataBody
        (getCachedData
          (setCachedData
            ({ enable_cache := true, cache_ttl := 3600, cache := [], lruMemo := [] } :
              ExtractorCache Nat) 0 "video_info:K" 42)
          1 "video_info:K").2
        4000 "video_info:K").2 = 0 := by
  decide

end YoutubeMcp
